import Mathlib

/-!
Verification of the webauth token handler
(src/exp/services/webauth/internal/serve/token.go) against its
specification. The handler body after request decoding is embedded
shallowly: the external collaborators (challenge parsing, account lookup,
hashing, JOSE signing) are parameters of an environment record, and the
txnbuild challenge-verification functions, which belong to this repository
but are outside the provided sources, are modelled from the specification.
-/

namespace Webauth

/-- Time bounds of a challenge transaction, as exposed by the Timebounds()
accessor on the parsed transaction: minimum and maximum time in Unix
seconds. -/
structure Timebounds where
  minTime : Int
  maxTime : Int
deriving DecidableEq, Repr

/-- Modelled from the spec: a client signature attached to a parsed challenge
(the txnbuild signature-verification code of this repository is outside the
provided sources). The verification library attributes a signature to the
signer identity whose key validly produced it; a signature matching no
identity carries none. -/
structure Sig where
  signer : Option String
deriving DecidableEq, Repr

/-- The parts of a parsed txnbuild.Transaction that the handler reads: its
time bounds and its attached signatures. -/
structure Transaction where
  timebounds : Timebounds
  signatures : List Sig
deriving DecidableEq, Repr

/-- Account thresholds as carried by the aurora account record: the low,
medium and high threshold tiers. -/
structure Thresholds where
  lowThreshold : Int
  medThreshold : Int
  highThreshold : Int
deriving DecidableEq, Repr

/-- The parts of an aurora account record the handler reads: its thresholds
and its signer summary (signer identity paired with weight). -/
structure Account where
  thresholds : Thresholds
  signerSummary : List (String × Int)
deriving DecidableEq, Repr

/-- Outcome of the AccountDetail call as classified by the handler's switch
(token.go lines 87-100): success, a not-found error, or any other
(transient/backend) error. -/
inductive AccountLookup where
  | found (a : Account)
  | notFound
  | transientErr
deriving DecidableEq, Repr

/-- The four values returned by txnbuild.ReadChallengeTx: a possibly nil
transaction pointer, the client account id, the home domain, and whether an
error occurred. -/
structure ReadResult where
  tx : Option Transaction
  clientAccountID : String
  homeDomain : String
  err : Bool
deriving DecidableEq, Repr

/-- The JWT claim set built by the handler (token.go lines 144-149). -/
structure Claims where
  issuer : String
  subject : String
  issuedAt : Int
  expiry : Int
deriving DecidableEq, Repr

/-- External collaborators of the handler. The fixed configuration arguments
that the handler passes unchanged at every call site (network passphrase,
server domain, allowed home domains, the JWK) are folded into the
collaborator functions. readChallengeTx takes the raw challenge and a
candidate server signing address; newSigner models jose.NewSigner on the
configured key; serialize models signing and compact-serializing a claim
set. -/
structure Env where
  readChallengeTx : String → String → ReadResult
  accountDetail : String → AccountLookup
  hashHex : Transaction → Except Unit String
  newSigner : Except Unit Unit
  serialize : Claims → Except Unit String

/-- Handler configuration read by the embedded code paths (token.go lines
18-29); fields consumed only inside folded collaborator calls are omitted. -/
structure Handler where
  signingAddresses : List String
  jwtIssuer : String
  jwtExpiresIn : Int
  allowAccountsThatDoNotExist : Bool

/-- Response classifications the handler can render, together with nilPanic
standing for a nil-transaction dereference, and the successful token
response carrying the claim set and the serialized token string. -/
inductive Response where
  | badRequest
  | unauthorized
  | serverError
  | nilPanic
  | tokenOk (claims : Claims) (tokenStr : String)
deriving DecidableEq, Repr

/-- The loop variables of the signing-address selection loop (token.go lines
50-62). -/
structure LoopState where
  tx : Option Transaction
  clientAccountID : String
  homeDomain : String
  signingAddress : Option String
deriving DecidableEq, Repr

/-- Go zero values of the loop variables before the first iteration. -/
def initState : LoopState :=
  { tx := none, clientAccountID := "", homeDomain := "", signingAddress := none }

/-- The selection loop (token.go lines 56-62): every iteration overwrites tx,
clientAccountID and homeDomain with ReadChallengeTx's results; on the first
success the candidate is recorded as the signing address and the loop
stops. -/
def runLoop (env : Env) (raw : String) : List String → LoopState → LoopState
  | [], st => st
  | s :: rest, st =>
    if (env.readChallengeTx raw s).err = false then
      { tx := (env.readChallengeTx raw s).tx,
        clientAccountID := (env.readChallengeTx raw s).clientAccountID,
        homeDomain := (env.readChallengeTx raw s).homeDomain,
        signingAddress := some s }
    else
      runLoop env raw rest
        { tx := (env.readChallengeTx raw s).tx,
          clientAccountID := (env.readChallengeTx raw s).clientAccountID,
          homeDomain := (env.readChallengeTx raw s).homeDomain,
          signingAddress := st.signingAddress }

/-- Weight recorded for a signer identity in a signer summary, zero when the
identity is absent. -/
def lookupWeight (summary : List (String × Int)) (id : String) : Int :=
  match summary.find? (fun p => p.1 == id) with
  | some p => p.2
  | none => 0

/-- Whether a signature is attributed to a signer listed in the summary. -/
def knownSigner (summary : List (String × Int)) (sg : Sig) : Bool :=
  match sg.signer with
  | some id => summary.any (fun p => p.1 == id)
  | none => false

/-- Distinct signer identities attributed to the signatures. -/
def distinctSigners (sigs : List Sig) : List String :=
  (sigs.filterMap (fun sg => sg.signer)).dedup

/-- Sum of the weights of the distinct signers attributed to the
signatures. -/
def verifiedWeight (sigs : List Sig) (summary : List (String × Int)) : Int :=
  ((distinctSigners sigs).map (lookupWeight summary)).sum

/-- Modelled from the spec: txnbuild.VerifyChallengeTxThreshold (code of this
repository outside the provided sources). It fails if any signature does not
correspond to a known signer; otherwise it sums the weights of the distinct
valid signers, fails exactly when the sum is strictly below the required
threshold, and on success returns the distinct signer identities that
contributed. -/
def VerifyChallengeTxThreshold (sigs : List Sig) (summary : List (String × Int))
    (threshold : Int) : Except Unit (List String) :=
  if sigs.all (knownSigner summary) then
    if threshold ≤ verifiedWeight sigs summary then .ok (distinctSigners sigs)
    else .error ()
  else .error ()

/-- Modelled from the spec: txnbuild.VerifyChallengeTxSigners as called on
the branch for accounts that do not exist (code of this repository outside
the provided sources). It succeeds exactly when the challenge bears a valid
signature from the client account's own identity, which is then the single
verified signer. -/
def VerifyChallengeTxSigners (sigs : List Sig) (clientAccountID : String) :
    Except Unit (List String) :=
  if sigs.any (fun sg => sg.signer == some clientAccountID) then
    .ok [clientAccountID]
  else .error ()

/-- The claim set built at token.go lines 143-149: issuedAt is the challenge
transaction's minimum time bound; expiry is issuedAt plus the configured
token duration. -/
def mkClaims (h : Handler) (tx : Transaction) (clientAccountID : String) : Claims :=
  { issuer := h.jwtIssuer, subject := clientAccountID,
    issuedAt := tx.timebounds.minTime,
    expiry := tx.timebounds.minTime + h.jwtExpiresIn }

/-- Token issuance (token.go lines 134-160): construct the JOSE signer, build
the claims, sign and serialize them; any failure renders serverError. -/
def issueToken (h : Handler) (env : Env) (tx : Transaction)
    (clientAccountID : String) : Response :=
  match env.newSigner with
  | .error _ => .serverError
  | .ok _ =>
    match env.serialize (mkClaims h tx clientAccountID) with
    | .error _ => .serverError
    | .ok tokenStr => .tokenOk (mkClaims h tx clientAccountID) tokenStr

/-- The part of tokenHandler.ServeHTTP that follows the selection loop
(token.go lines 63-161), as a function of the loop's final state: home-domain
check, transaction hash, account lookup with three-way classification,
branching verification, token issuance. -/
def afterLoop (h : Handler) (env : Env) (st : LoopState) : Response :=
  match st.signingAddress with
  | none => .badRequest
  | some _ =>
    if st.homeDomain = "" then .badRequest
    else
      match st.tx with
      | none => .nilPanic
      | some tx =>
        match env.hashHex tx with
        | .error _ => .serverError
        | .ok _ =>
          match env.accountDetail st.clientAccountID with
          | .found clientAccount =>
            match VerifyChallengeTxThreshold tx.signatures
                clientAccount.signerSummary clientAccount.thresholds.highThreshold with
            | .error _ => .unauthorized
            | .ok _ => issueToken h env tx st.clientAccountID
          | .notFound =>
            if h.allowAccountsThatDoNotExist then
              match VerifyChallengeTxSigners tx.signatures st.clientAccountID with
              | .error _ => .unauthorized
              | .ok _ => issueToken h env tx st.clientAccountID
            else .unauthorized
          | .transientErr => .serverError

/-- The body of tokenHandler.ServeHTTP after request decoding (token.go lines
50-161): the selection loop starting from the zero-valued loop variables,
followed by the rest of the handler. -/
def serveHTTP (h : Handler) (env : Env) (raw : String) : Response :=
  afterLoop h env (runLoop env raw h.signingAddresses initState)

/-! Helper lemmas about the selection loop and token issuance, shared by the
claim theorems below. -/

theorem issueToken_ne_nilPanic (h : Handler) (env : Env) (tx : Transaction)
    (cid : String) : issueToken h env tx cid ≠ Response.nilPanic := by
  unfold issueToken
  cases env.newSigner with
  | error u => simp
  | ok u =>
    cases env.serialize (mkClaims h tx cid) with
    | error v => simp
    | ok t => simp

theorem issueToken_tokenOk_inv {h : Handler} {env : Env} {tx : Transaction}
    {cid : String} {c : Claims} {t : String}
    (hres : issueToken h env tx cid = Response.tokenOk c t) :
    env.newSigner = Except.ok () ∧ c = mkClaims h tx cid ∧
      env.serialize (mkClaims h tx cid) = Except.ok t := by
  unfold issueToken at hres
  cases hns : env.newSigner with
  | error u => rw [hns] at hres; simp at hres
  | ok u =>
    rw [hns] at hres
    cases hser : env.serialize (mkClaims h tx cid) with
    | error v => rw [hser] at hres; simp at hres
    | ok t2 =>
      rw [hser] at hres
      rw [Response.tokenOk.injEq] at hres
      exact ⟨by cases u; rfl, hres.1.symm, by rw [hres.2]⟩

theorem issueToken_of_ok {h : Handler} {env : Env} {tx : Transaction}
    {cid : String} {t : String}
    (hns : env.newSigner = Except.ok ())
    (hser : env.serialize (mkClaims h tx cid) = Except.ok t) :
    issueToken h env tx cid = Response.tokenOk (mkClaims h tx cid) t := by
  unfold issueToken
  rw [hns, hser]

theorem runLoop_all_fail (env : Env) (raw : String) (addrs : List String)
    (st : LoopState)
    (hall : addrs.all (fun s => (env.readChallengeTx raw s).err) = true) :
    (runLoop env raw addrs st).signingAddress = st.signingAddress := by
  induction addrs generalizing st with
  | nil => rfl
  | cons s rest ih =>
    rw [List.all_cons, Bool.and_eq_true] at hall
    simp only [runLoop]
    rw [if_neg (by simp [hall.1])]
    exact ih _ hall.2

theorem runLoop_first_success (env : Env) (raw : String) (pre : List String)
    (s : String) (rest : List String) (st : LoopState)
    (hpre : pre.all (fun s' => (env.readChallengeTx raw s').err) = true)
    (hs : (env.readChallengeTx raw s).err = false) :
    runLoop env raw (pre ++ s :: rest) st =
      { tx := (env.readChallengeTx raw s).tx,
        clientAccountID := (env.readChallengeTx raw s).clientAccountID,
        homeDomain := (env.readChallengeTx raw s).homeDomain,
        signingAddress := some s } := by
  induction pre generalizing st with
  | nil =>
    rw [List.nil_append]
    simp only [runLoop]
    rw [if_pos hs]
  | cons p ptail ih =>
    rw [List.all_cons, Bool.and_eq_true] at hpre
    rw [List.cons_append]
    simp only [runLoop]
    rw [if_neg (by simp [hpre.1])]
    exact ih _ hpre.2

theorem runLoop_signing_nonNil (env : Env) (raw : String) (addrs : List String)
    (st : LoopState)
    (hcon : addrs.all
      (fun s => (env.readChallengeTx raw s).err || (env.readChallengeTx raw s).tx.isSome) = true)
    (hst : st.signingAddress = none)
    (hsel : (runLoop env raw addrs st).signingAddress ≠ none) :
    (runLoop env raw addrs st).tx ≠ none := by
  induction addrs generalizing st with
  | nil =>
    simp only [runLoop] at hsel
    exact absurd hst hsel
  | cons s rest ih =>
    rw [List.all_cons, Bool.and_eq_true] at hcon
    by_cases herr : (env.readChallengeTx raw s).err = false
    · simp only [runLoop] at hsel ⊢
      rw [if_pos herr] at hsel ⊢
      have hsome : (env.readChallengeTx raw s).tx.isSome = true := by
        rcases Bool.or_eq_true_iff.mp hcon.1 with h1 | h1
        · exact absurd herr (by simp [h1])
        · exact h1
      exact Option.isSome_iff_ne_none.mp hsome
    · simp only [runLoop] at hsel ⊢
      rw [if_neg herr] at hsel ⊢
      exact ih _ hcon.2 hst hsel

theorem runLoop_ext (env1 env2 : Env) (raw : String) (addrs : List String)
    (st : LoopState)
    (hrd : env1.readChallengeTx = env2.readChallengeTx) :
    runLoop env1 raw addrs st = runLoop env2 raw addrs st := by
  induction addrs generalizing st with
  | nil => rfl
  | cons s rest ih =>
    simp only [runLoop, hrd]
    by_cases herr : (env2.readChallengeTx raw s).err = false
    · rw [if_pos herr, if_pos herr]
    · rw [if_neg herr, if_neg herr]
      exact ih _

theorem afterLoop_ne_nilPanic (h : Handler) (env : Env) (st : LoopState)
    (himp : st.signingAddress ≠ none → st.tx ≠ none) :
    afterLoop h env st ≠ Response.nilPanic := by
  obtain ⟨otx, cid, hd, osel⟩ := st
  cases osel with
  | none => simp [afterLoop]
  | some s =>
    have htx : otx ≠ none := himp (by simp)
    cases otx with
    | none => exact absurd rfl htx
    | some tx =>
      simp only [afterLoop]
      by_cases hhd : hd = ""
      · rw [if_pos hhd]; simp
      · rw [if_neg hhd]
        cases env.hashHex tx with
        | error u => simp
        | ok d =>
          dsimp only
          cases env.accountDetail cid with
          | found acc =>
            dsimp only
            cases VerifyChallengeTxThreshold tx.signatures acc.signerSummary
                acc.thresholds.highThreshold with
            | error u => simp
            | ok sv =>
              dsimp only
              exact issueToken_ne_nilPanic h env tx cid
          | notFound =>
            dsimp only
            by_cases hflag : h.allowAccountsThatDoNotExist = true
            · rw [if_pos hflag]
              cases VerifyChallengeTxSigners tx.signatures cid with
              | error u => simp
              | ok sv =>
                dsimp only
                exact issueToken_ne_nilPanic h env tx cid
            · rw [if_neg hflag]; simp
          | transientErr => simp

theorem afterLoop_tokenOk_inv {h : Handler} {env : Env} {st : LoopState}
    {c : Claims} {t : String}
    (hres : afterLoop h env st = Response.tokenOk c t) :
    ∃ tx, st.tx = some tx ∧ c = mkClaims h tx st.clientAccountID := by
  unfold afterLoop at hres
  split at hres
  · exact absurd hres (by simp)
  · split at hres
    · exact absurd hres (by simp)
    · split at hres
      · exact absurd hres (by simp)
      · next tx htx =>
        split at hres
        · exact absurd hres (by simp)
        · split at hres
          · split at hres
            · exact absurd hres (by simp)
            · exact ⟨tx, htx, (issueToken_tokenOk_inv hres).2.1⟩
          · split at hres
            · split at hres
              · exact absurd hres (by simp)
              · exact ⟨tx, htx, (issueToken_tokenOk_inv hres).2.1⟩
            · exact absurd hres (by simp)
          · exact absurd hres (by simp)

/-! Concrete fixtures for the witness theorems. -/

/-- Sample parsed challenge transaction. -/
def txW : Transaction :=
  { timebounds := { minTime := 100, maxTime := 400 },
    signatures := [{ signer := some "GCLIENT" }, { signer := some "GSIGNER2" }] }

/-- Sample existing account: high threshold 3, met exactly by the two sample
signers. -/
def accW : Account :=
  { thresholds := { lowThreshold := 1, medThreshold := 2, highThreshold := 3 },
    signerSummary := [("GCLIENT", 2), ("GSIGNER2", 1)] }

/-- Sample environment: parsing succeeds only for candidate GSERVER, the
account exists, hashing and signing succeed. -/
def envW : Env :=
  { readChallengeTx := fun _ s =>
      if s = "GSERVER" then
        { tx := some txW, clientAccountID := "GCLIENT",
          homeDomain := "example.com", err := false }
      else { tx := none, clientAccountID := "", homeDomain := "", err := true },
    accountDetail := fun _ => .found accW,
    hashHex := fun _ => .ok "deadbeef",
    newSigner := .ok (),
    serialize := fun c => .ok ("tok-" ++ c.subject) }

/-- Sample handler configuration. -/
def hW : Handler :=
  { signingAddresses := ["GBAD", "GSERVER"], jwtIssuer := "issuer",
    jwtExpiresIn := 300, allowAccountsThatDoNotExist := false }

/-- The claim set the sample run issues. -/
def cW : Claims :=
  { issuer := "issuer", subject := "GCLIENT", issuedAt := 100, expiry := 400 }

/-! Claim theorems. -/

/-- C1: every token the handler issues has issuedAt equal to the challenge
transaction's minimum time bound, and expiry minus issuedAt equal to the
configured token duration exactly. -/
theorem C1_token_time_anchored (h : Handler) (env : Env) (raw : String)
    (c : Claims) (t : String)
    (hres : serveHTTP h env raw = Response.tokenOk c t) :
    c.expiry - c.issuedAt = h.jwtExpiresIn ∧
      ∃ tx, (runLoop env raw h.signingAddresses initState).tx = some tx ∧
        c.issuedAt = tx.timebounds.minTime := by
  unfold serveHTTP at hres
  obtain ⟨tx, htx, hc⟩ := afterLoop_tokenOk_inv hres
  subst hc
  exact ⟨by simp [mkClaims], tx, htx, rfl⟩

/-- Witness for C1 at the sample run. -/
theorem C1_witness :
    cW.expiry - cW.issuedAt = hW.jwtExpiresIn ∧
      ∃ tx, (runLoop envW "raw" hW.signingAddresses initState).tx = some tx ∧
        cW.issuedAt = tx.timebounds.minTime :=
  C1_token_time_anchored hW envW "raw" cW "tok-GCLIENT" rfl

/-- C5: when the challenge parses under some candidate but the parsed home
domain is the empty string, the handler renders badRequest and issues no
token, whatever the environment does elsewhere. -/
theorem C5_empty_home_domain (h : Handler) (env : Env) (raw : String)
    (st : LoopState) (s : String)
    (hst : runLoop env raw h.signingAddresses initState = st)
    (hsel : st.signingAddress = some s)
    (hhd : st.homeDomain = "") :
    serveHTTP h env raw = Response.badRequest := by
  unfold serveHTTP
  rw [hst]
  obtain ⟨otx, cid, hd, osel⟩ := st
  change osel = some s at hsel
  change hd = "" at hhd
  subst hsel
  subst hhd
  rfl

/-- Environment in which parsing succeeds with an empty home domain. -/
def envW5 : Env :=
  { envW with readChallengeTx := fun _ s =>
      if s = "GSERVER" then
        { tx := some txW, clientAccountID := "GCLIENT",
          homeDomain := "", err := false }
      else { tx := none, clientAccountID := "", homeDomain := "", err := true } }

/-- Witness for C5 at the sample run with an empty parsed home domain. -/
theorem C5_witness : serveHTTP hW envW5 "raw" = Response.badRequest :=
  C5_empty_home_domain hW envW5 "raw"
    (runLoop envW5 "raw" hW.signingAddresses initState) "GSERVER" rfl rfl rfl

/-- C6: when the account lookup fails with an error other than not-found,
the handler renders serverError and issues no token; the outcome is never
unauthorized. -/
theorem C6_transient_error (h : Handler) (env : Env) (raw : String)
    (st : LoopState) (s : String) (tx : Transaction)
    (hst : runLoop env raw h.signingAddresses initState = st)
    (hsel : st.signingAddress = some s)
    (hhd : st.homeDomain ≠ "")
    (htx : st.tx = some tx)
    (hacct : env.accountDetail st.clientAccountID = AccountLookup.transientErr) :
    serveHTTP h env raw = Response.serverError := by
  unfold serveHTTP
  rw [hst]
  obtain ⟨otx, cid, hd, osel⟩ := st
  change osel = some s at hsel
  change hd ≠ "" at hhd
  change otx = some tx at htx
  change env.accountDetail cid = _ at hacct
  subst hsel
  subst htx
  simp only [afterLoop]
  rw [if_neg hhd]
  cases hh : env.hashHex tx with
  | error u => rfl
  | ok d => rw [hacct]

/-- Environment in which the account lookup fails transiently. -/
def envW6 : Env :=
  { envW with accountDetail := fun _ => .transientErr }

/-- Witness for C6 at the sample run with a transiently failing lookup. -/
theorem C6_witness : serveHTTP hW envW6 "raw" = Response.serverError :=
  C6_transient_error hW envW6 "raw"
    (runLoop envW6 "raw" hW.signingAddresses initState) "GSERVER" txW
    rfl rfl (by decide) rfl rfl

/-- C9: under the library guarantee that a successful ReadChallengeTx call
returns a non-nil transaction (stated for the configured candidates), a
non-nil selected signing address implies a non-nil parsed transaction, and
the handler never dereferences a nil transaction. -/
theorem C9_no_nil_deref (h : Handler) (env : Env) (raw : String)
    (hcon : h.signingAddresses.all
      (fun s => (env.readChallengeTx raw s).err ||
        (env.readChallengeTx raw s).tx.isSome) = true) :
    ((runLoop env raw h.signingAddresses initState).signingAddress ≠ none →
        (runLoop env raw h.signingAddresses initState).tx ≠ none)
    ∧ serveHTTP h env raw ≠ Response.nilPanic := by
  have himp := runLoop_signing_nonNil env raw h.signingAddresses initState hcon rfl
  exact ⟨himp, afterLoop_ne_nilPanic h env _ himp⟩

/-- Witness for C9 at the sample run. -/
theorem C9_witness :
    ((runLoop envW "raw" hW.signingAddresses initState).signingAddress ≠ none →
        (runLoop envW "raw" hW.signingAddresses initState).tx ≠ none)
    ∧ serveHTTP hW envW "raw" ≠ Response.nilPanic :=
  C9_no_nil_deref hW envW "raw" (by decide)

/-- C7: a hashing failure renders serverError, and a failure constructing the
token signer or signing the claim set makes issuance render serverError; no
branch issues a token after such a failure. -/
theorem C7_internal_failures (h : Handler) (env : Env) (raw : String)
    (st : LoopState) (s : String) (tx : Transaction)
    (hst : runLoop env raw h.signingAddresses initState = st)
    (hsel : st.signingAddress = some s)
    (hhd : st.homeDomain ≠ "")
    (htx : st.tx = some tx) :
    (env.hashHex tx = Except.error () → serveHTTP h env raw = Response.serverError)
    ∧ (∀ tx2 cid, env.newSigner = Except.error () →
        issueToken h env tx2 cid = Response.serverError)
    ∧ (∀ tx2 cid, env.serialize (mkClaims h tx2 cid) = Except.error () →
        issueToken h env tx2 cid = Response.serverError) := by
  refine ⟨?_, ?_, ?_⟩
  · intro hh
    unfold serveHTTP
    rw [hst]
    obtain ⟨otx, cid, hd, osel⟩ := st
    change osel = some s at hsel
    change hd ≠ "" at hhd
    change otx = some tx at htx
    subst hsel
    subst htx
    simp only [afterLoop]
    rw [if_neg hhd, hh]
  · intro tx2 cid hns
    unfold issueToken
    rw [hns]
  · intro tx2 cid hser
    unfold issueToken
    cases hns : env.newSigner with
    | error u => rfl
    | ok u => rw [hser]

/-- Environment whose transaction hashing fails. -/
def envW7a : Env :=
  { envW with hashHex := fun _ => .error () }

/-- Environment whose JOSE signer construction fails. -/
def envW7b : Env :=
  { envW with newSigner := .error () }

/-- Environment whose claim-set serialization fails. -/
def envW7c : Env :=
  { envW with serialize := fun _ => .error () }

/-- Witness for C7: each of the three internal failures at the sample run
renders serverError. -/
theorem C7_witness :
    serveHTTP hW envW7a "raw" = Response.serverError
    ∧ issueToken hW envW7b txW "GCLIENT" = Response.serverError
    ∧ issueToken hW envW7c txW "GCLIENT" = Response.serverError :=
  ⟨(C7_internal_failures hW envW7a "raw"
      (runLoop envW7a "raw" hW.signingAddresses initState) "GSERVER" txW
      rfl rfl (by decide) rfl).1 rfl,
   (C7_internal_failures hW envW7b "raw"
      (runLoop envW7b "raw" hW.signingAddresses initState) "GSERVER" txW
      rfl rfl (by decide) rfl).2.1 txW "GCLIENT" rfl,
   (C7_internal_failures hW envW7c "raw"
      (runLoop envW7c "raw" hW.signingAddresses initState) "GSERVER" txW
      rfl rfl (by decide) rfl).2.2 txW "GCLIENT" rfl⟩

/-- C2: for a request whose client account exists, verification is against
the account's high threshold: a token is issued exactly when every challenge
signature corresponds to a known signer and the weights of the distinct
valid signers sum to at least the high threshold; when either condition
fails the handler renders unauthorized and issues no token. -/
theorem C2_high_threshold (h : Handler) (env : Env) (raw : String)
    (st : LoopState) (s : String) (tx : Transaction) (acc : Account)
    (d tser : String)
    (hst : runLoop env raw h.signingAddresses initState = st)
    (hsel : st.signingAddress = some s)
    (hhd : st.homeDomain ≠ "")
    (htx : st.tx = some tx)
    (hhash : env.hashHex tx = Except.ok d)
    (hacct : env.accountDetail st.clientAccountID = AccountLookup.found acc)
    (hns : env.newSigner = Except.ok ())
    (hser : env.serialize (mkClaims h tx st.clientAccountID) = Except.ok tser) :
    ((∃ c t, serveHTTP h env raw = Response.tokenOk c t) ↔
      (tx.signatures.all (knownSigner acc.signerSummary) = true ∧
        acc.thresholds.highThreshold ≤ verifiedWeight tx.signatures acc.signerSummary))
    ∧ ((tx.signatures.all (knownSigner acc.signerSummary) = false ∨
        verifiedWeight tx.signatures acc.signerSummary < acc.thresholds.highThreshold) →
        serveHTTP h env raw = Response.unauthorized) := by
  have hred : serveHTTP h env raw =
      (match VerifyChallengeTxThreshold tx.signatures acc.signerSummary
          acc.thresholds.highThreshold with
      | .error _ => Response.unauthorized
      | .ok _ => issueToken h env tx st.clientAccountID) := by
    unfold serveHTTP
    rw [hst]
    obtain ⟨otx, cid, hd, osel⟩ := st
    change osel = some s at hsel
    change hd ≠ "" at hhd
    change otx = some tx at htx
    change env.accountDetail cid = _ at hacct
    subst hsel
    subst htx
    simp only [afterLoop]
    rw [if_neg hhd, hhash]
    dsimp only
    rw [hacct]
  by_cases hall : tx.signatures.all (knownSigner acc.signerSummary) = true
  · by_cases hthr : acc.thresholds.highThreshold ≤ verifiedWeight tx.signatures acc.signerSummary
    · have hv : VerifyChallengeTxThreshold tx.signatures acc.signerSummary
          acc.thresholds.highThreshold = .ok (distinctSigners tx.signatures) := by
        unfold VerifyChallengeTxThreshold
        rw [if_pos hall, if_pos hthr]
      rw [hv] at hred
      have htok : serveHTTP h env raw =
          Response.tokenOk (mkClaims h tx st.clientAccountID) tser := by
        rw [hred]
        exact issueToken_of_ok hns hser
      constructor
      · exact iff_of_true ⟨_, _, htok⟩ ⟨hall, hthr⟩
      · intro hcontra
        rcases hcontra with hf | hlt
        · rw [hall] at hf
          exact absurd hf (by simp)
        · omega
    · have hv : VerifyChallengeTxThreshold tx.signatures acc.signerSummary
          acc.thresholds.highThreshold = .error () := by
        unfold VerifyChallengeTxThreshold
        rw [if_pos hall, if_neg hthr]
      rw [hv] at hred
      constructor
      · apply iff_of_false
        · rintro ⟨c, t, hc⟩
          rw [hred] at hc
          exact absurd hc (by simp)
        · rintro ⟨h1, h2⟩
          exact hthr h2
      · intro hcontra
        rw [hred]
  · have hv : VerifyChallengeTxThreshold tx.signatures acc.signerSummary
        acc.thresholds.highThreshold = .error () := by
      unfold VerifyChallengeTxThreshold
      rw [if_neg hall]
    rw [hv] at hred
    constructor
    · apply iff_of_false
      · rintro ⟨c, t, hc⟩
        rw [hred] at hc
        exact absurd hc (by simp)
      · rintro ⟨h1, h2⟩
        exact hall h1
    · intro hcontra
      rw [hred]

/-- Witness for C2 at the sample run: the two sample signers meet the high
threshold exactly and a token is issued. -/
theorem C2_witness :
    ((∃ c t, serveHTTP hW envW "raw" = Response.tokenOk c t) ↔
      (txW.signatures.all (knownSigner accW.signerSummary) = true ∧
        accW.thresholds.highThreshold ≤ verifiedWeight txW.signatures accW.signerSummary))
    ∧ ((txW.signatures.all (knownSigner accW.signerSummary) = false ∨
        verifiedWeight txW.signatures accW.signerSummary < accW.thresholds.highThreshold) →
        serveHTTP hW envW "raw" = Response.unauthorized) :=
  C2_high_threshold hW envW "raw"
    (runLoop envW "raw" hW.signingAddresses initState) "GSERVER" txW accW
    "deadbeef" "tok-GCLIENT" rfl rfl (by decide) rfl rfl rfl rfl rfl

/-- C3: for a request whose client account does not exist, a false
AllowAccountsThatDoNotExist flag renders unauthorized whatever the
signatures are; a true flag issues a token exactly when the challenge bears
a valid signature from the client account's own identity, and renders
unauthorized otherwise. -/
theorem C3_nonexistent_account (h : Handler) (env : Env) (raw : String)
    (st : LoopState) (s : String) (tx : Transaction)
    (d tser : String)
    (hst : runLoop env raw h.signingAddresses initState = st)
    (hsel : st.signingAddress = some s)
    (hhd : st.homeDomain ≠ "")
    (htx : st.tx = some tx)
    (hhash : env.hashHex tx = Except.ok d)
    (hacct : env.accountDetail st.clientAccountID = AccountLookup.notFound)
    (hns : env.newSigner = Except.ok ())
    (hser : env.serialize (mkClaims h tx st.clientAccountID) = Except.ok tser) :
    (h.allowAccountsThatDoNotExist = false → serveHTTP h env raw = Response.unauthorized)
    ∧ (h.allowAccountsThatDoNotExist = true →
        ((∃ c t, serveHTTP h env raw = Response.tokenOk c t) ↔
          tx.signatures.any (fun sg => sg.signer == some st.clientAccountID) = true)
        ∧ (tx.signatures.any (fun sg => sg.signer == some st.clientAccountID) = false →
            serveHTTP h env raw = Response.unauthorized)) := by
  have hred : serveHTTP h env raw =
      (if h.allowAccountsThatDoNotExist = true then
        (match VerifyChallengeTxSigners tx.signatures st.clientAccountID with
        | .error _ => Response.unauthorized
        | .ok _ => issueToken h env tx st.clientAccountID)
      else Response.unauthorized) := by
    unfold serveHTTP
    rw [hst]
    obtain ⟨otx, cid, hd, osel⟩ := st
    change osel = some s at hsel
    change hd ≠ "" at hhd
    change otx = some tx at htx
    change env.accountDetail cid = _ at hacct
    subst hsel
    subst htx
    simp only [afterLoop]
    rw [if_neg hhd, hhash]
    dsimp only
    rw [hacct]
  constructor
  · intro hflag
    rw [hred, hflag]
    rfl
  · intro hflag
    rw [hflag] at hred
    rw [if_pos rfl] at hred
    by_cases hany : tx.signatures.any (fun sg => sg.signer == some st.clientAccountID) = true
    · have hv : VerifyChallengeTxSigners tx.signatures st.clientAccountID =
          .ok [st.clientAccountID] := by
        unfold VerifyChallengeTxSigners
        rw [if_pos hany]
      rw [hv] at hred
      have htok : serveHTTP h env raw =
          Response.tokenOk (mkClaims h tx st.clientAccountID) tser := by
        rw [hred]
        exact issueToken_of_ok hns hser
      constructor
      · exact iff_of_true ⟨_, _, htok⟩ hany
      · intro hf
        rw [hany] at hf
        exact absurd hf (by simp)
    · have hv : VerifyChallengeTxSigners tx.signatures st.clientAccountID = .error () := by
        unfold VerifyChallengeTxSigners
        rw [if_neg hany]
      rw [hv] at hred
      constructor
      · apply iff_of_false
        · rintro ⟨c, t, hc⟩
          rw [hred] at hc
          exact absurd hc (by simp)
        · exact hany
      · intro hf
        rw [hred]

/-- Environment in which the account lookup reports not-found. -/
def envW3 : Env :=
  { envW with accountDetail := fun _ => .notFound }

/-- Handler configuration allowing accounts that do not exist. -/
def hWt : Handler :=
  { hW with allowAccountsThatDoNotExist := true }

/-- Witness for C3: with the flag disabled the sample run is unauthorized;
with the flag enabled the token outcome matches the self-signature test. -/
theorem C3_witness :
    serveHTTP hW envW3 "raw" = Response.unauthorized
    ∧ (((∃ c t, serveHTTP hWt envW3 "raw" = Response.tokenOk c t) ↔
        txW.signatures.any (fun sg => sg.signer ==
          some ((runLoop envW3 "raw" hWt.signingAddresses initState).clientAccountID)) = true)
      ∧ (txW.signatures.any (fun sg => sg.signer ==
          some ((runLoop envW3 "raw" hWt.signingAddresses initState).clientAccountID)) = false →
          serveHTTP hWt envW3 "raw" = Response.unauthorized)) :=
  ⟨(C3_nonexistent_account hW envW3 "raw"
      (runLoop envW3 "raw" hW.signingAddresses initState) "GSERVER" txW
      "deadbeef" "tok-GCLIENT" rfl rfl (by decide) rfl rfl rfl rfl rfl).1 rfl,
   (C3_nonexistent_account hWt envW3 "raw"
      (runLoop envW3 "raw" hWt.signingAddresses initState) "GSERVER" txW
      "deadbeef" "tok-GCLIENT" rfl rfl (by decide) rfl rfl rfl rfl rfl).2 rfl⟩

theorem afterLoop_tokenOk_strong_inv {h : Handler} {env : Env} {st : LoopState}
    {c : Claims} {t : String}
    (hres : afterLoop h env st = Response.tokenOk c t) :
    ∃ s tx, st.signingAddress = some s ∧ st.homeDomain ≠ "" ∧ st.tx = some tx ∧
      (∃ d, env.hashHex tx = Except.ok d) ∧
      env.newSigner = Except.ok () ∧
      c = mkClaims h tx st.clientAccountID ∧
      env.serialize (mkClaims h tx st.clientAccountID) = Except.ok t ∧
      ((∃ acc sv, env.accountDetail st.clientAccountID = AccountLookup.found acc ∧
          VerifyChallengeTxThreshold tx.signatures acc.signerSummary
            acc.thresholds.highThreshold = Except.ok sv) ∨
        (env.accountDetail st.clientAccountID = AccountLookup.notFound ∧
          h.allowAccountsThatDoNotExist = true ∧
          ∃ sv, VerifyChallengeTxSigners tx.signatures st.clientAccountID =
            Except.ok sv)) := by
  unfold afterLoop at hres
  split at hres
  · exact absurd hres (by simp)
  · next s hsel =>
    split at hres
    · exact absurd hres (by simp)
    · next hhd =>
      split at hres
      · exact absurd hres (by simp)
      · next tx htx =>
        split at hres
        · exact absurd hres (by simp)
        · next d hhash =>
          split at hres
          · next acc hacct =>
            split at hres
            · exact absurd hres (by simp)
            · next sv hv =>
              obtain ⟨hns, hc, hser⟩ := issueToken_tokenOk_inv hres
              exact ⟨s, tx, hsel, hhd, htx, ⟨d, hhash⟩, hns, hc, hser,
                Or.inl ⟨acc, sv, hacct, hv⟩⟩
          · next hacct =>
            split at hres
            · next hflag =>
              split at hres
              · exact absurd hres (by simp)
              · next sv hv =>
                obtain ⟨hns, hc, hser⟩ := issueToken_tokenOk_inv hres
                exact ⟨s, tx, hsel, hhd, htx, ⟨d, hhash⟩, hns, hc, hser,
                  Or.inr ⟨hacct, hflag, sv, hv⟩⟩
            · exact absurd hres (by simp)
          · exact absurd hres (by simp)

theorem afterLoop_tokenOk_of {h : Handler} {env : Env} {st : LoopState}
    {s : String} {tx : Transaction} {d t : String}
    (hsel : st.signingAddress = some s) (hhd : st.homeDomain ≠ "")
    (htx : st.tx = some tx) (hhash : env.hashHex tx = Except.ok d)
    (hbranch : (∃ acc sv, env.accountDetail st.clientAccountID = AccountLookup.found acc ∧
        VerifyChallengeTxThreshold tx.signatures acc.signerSummary
          acc.thresholds.highThreshold = Except.ok sv) ∨
      (env.accountDetail st.clientAccountID = AccountLookup.notFound ∧
        h.allowAccountsThatDoNotExist = true ∧
        ∃ sv, VerifyChallengeTxSigners tx.signatures st.clientAccountID = Except.ok sv))
    (hns : env.newSigner = Except.ok ())
    (hser : env.serialize (mkClaims h tx st.clientAccountID) = Except.ok t) :
    afterLoop h env st = Response.tokenOk (mkClaims h tx st.clientAccountID) t := by
  obtain ⟨otx, cid, hd, osel⟩ := st
  change osel = some s at hsel
  change hd ≠ "" at hhd
  change otx = some tx at htx
  subst hsel
  subst htx
  simp only [afterLoop]
  rw [if_neg hhd, hhash]
  dsimp only
  rcases hbranch with ⟨acc, sv, hacct, hv⟩ | ⟨hacct, hflag, sv, hv⟩
  · change env.accountDetail cid = _ at hacct
    rw [hacct]
    dsimp only
    rw [hv]
    exact issueToken_of_ok hns hser
  · change env.accountDetail cid = _ at hacct
    rw [hacct]
    dsimp only
    rw [if_pos hflag, hv]
    exact issueToken_of_ok hns hser

/-- C4: the selector loop tries the configured candidates in order; if every
candidate fails, the handler renders badRequest whatever the other
collaborators would do, and otherwise the loop state carries exactly the
first validating candidate and the values it parsed. -/
theorem C4_selector (h : Handler) (env : Env) (raw : String) :
    ((h.signingAddresses.all (fun s => (env.readChallengeTx raw s).err) = true) →
      serveHTTP h env raw = Response.badRequest)
    ∧ (∀ pre s post, h.signingAddresses = pre ++ s :: post →
        pre.all (fun s2 => (env.readChallengeTx raw s2).err) = true →
        (env.readChallengeTx raw s).err = false →
        runLoop env raw h.signingAddresses initState =
          { tx := (env.readChallengeTx raw s).tx,
            clientAccountID := (env.readChallengeTx raw s).clientAccountID,
            homeDomain := (env.readChallengeTx raw s).homeDomain,
            signingAddress := some s }) := by
  constructor
  · intro hall
    have hsig := runLoop_all_fail env raw h.signingAddresses initState hall
    unfold serveHTTP afterLoop
    rw [hsig]
    rfl
  · intro pre s post heq hpre hs
    rw [heq]
    exact runLoop_first_success env raw pre s post initState hpre hs

/-- C8: two runs of the handler with identical configuration, parsing,
account state, hashing and signer construction issue tokens with the
identical claim set even when serialization (the signature bytes) differs:
if the first run issues a token with claims c and the second environment
serializes c successfully, the second run issues a token with the same
claims c. -/
theorem C8_idempotent_claims (h : Handler) (env1 env2 : Env) (raw : String)
    (c : Claims) (t1 t2 : String)
    (hrd : env1.readChallengeTx = env2.readChallengeTx)
    (hacct : env1.accountDetail = env2.accountDetail)
    (hhash : env1.hashHex = env2.hashHex)
    (hns : env1.newSigner = env2.newSigner)
    (hrun1 : serveHTTP h env1 raw = Response.tokenOk c t1)
    (hser2 : env2.serialize c = Except.ok t2) :
    serveHTTP h env2 raw = Response.tokenOk c t2 := by
  unfold serveHTTP at hrun1 ⊢
  rw [← runLoop_ext env1 env2 raw h.signingAddresses initState hrd]
  obtain ⟨s, tx, hsel, hhd, htx, ⟨d, hh⟩, hns1, hc, hser1, hbranch⟩ :=
    afterLoop_tokenOk_strong_inv hrun1
  rw [hhash] at hh
  rw [hns] at hns1
  rw [hacct] at hbranch
  rw [hc] at hser2
  have hres := afterLoop_tokenOk_of hsel hhd htx hh hbranch hns1 hser2
  rw [hres, hc]

/-- C10: for a request whose client account exists, the
AllowAccountsThatDoNotExist flag has no effect on the handler response. -/
theorem C10_flag_independent (h1 : Handler) (env : Env) (raw : String) (b : Bool)
    (st : LoopState) (acc : Account)
    (hst : runLoop env raw h1.signingAddresses initState = st)
    (hacct : env.accountDetail st.clientAccountID = AccountLookup.found acc) :
    serveHTTP h1 env raw =
      serveHTTP { h1 with allowAccountsThatDoNotExist := b } env raw := by
  show afterLoop h1 env (runLoop env raw h1.signingAddresses initState) =
    afterLoop { h1 with allowAccountsThatDoNotExist := b } env
      (runLoop env raw h1.signingAddresses initState)
  rw [hst]
  obtain ⟨otx, cid, hd, osel⟩ := st
  change env.accountDetail cid = _ at hacct
  cases osel with
  | none => rfl
  | some s =>
    simp only [afterLoop]
    by_cases hhd : hd = ""
    · rw [if_pos hhd, if_pos hhd]
    · rw [if_neg hhd, if_neg hhd]
      cases otx with
      | none => rfl
      | some tx =>
        dsimp only
        cases env.hashHex tx with
        | error u => rfl
        | ok d =>
          dsimp only
          rw [hacct]
          rfl

/-- Environment in which no candidate parses the challenge. -/
def envW4 : Env :=
  { envW with readChallengeTx := fun _ _ =>
      { tx := none, clientAccountID := "", homeDomain := "", err := true } }

/-- Witness for C4: with no validating candidate the sample run renders
badRequest; with the second candidate validating, the loop returns exactly
that candidate's parse. -/
theorem C4_witness :
    serveHTTP hW envW4 "raw" = Response.badRequest
    ∧ runLoop envW "raw" hW.signingAddresses initState =
      { tx := (envW.readChallengeTx "raw" "GSERVER").tx,
        clientAccountID := (envW.readChallengeTx "raw" "GSERVER").clientAccountID,
        homeDomain := (envW.readChallengeTx "raw" "GSERVER").homeDomain,
        signingAddress := some "GSERVER" } :=
  ⟨(C4_selector hW envW4 "raw").1 (by decide),
   (C4_selector hW envW "raw").2 ["GBAD"] "GSERVER" [] rfl (by decide) rfl⟩

/-- Environment differing from the sample only in its serializer. -/
def envW8 : Env :=
  { envW with serialize := fun c => .ok ("tok2-" ++ c.subject) }

/-- Witness for C8: rerunning the sample request with a different serializer
issues a token with the identical claim set. -/
theorem C8_witness :
    serveHTTP hW envW8 "raw" = Response.tokenOk cW "tok2-GCLIENT" :=
  C8_idempotent_claims hW envW envW8 "raw" cW "tok-GCLIENT" "tok2-GCLIENT"
    rfl rfl rfl rfl rfl rfl

/-- Witness for C10: flipping the flag leaves the sample run's response
unchanged. -/
theorem C10_witness :
    serveHTTP hW envW "raw" =
      serveHTTP { hW with allowAccountsThatDoNotExist := true } envW "raw" :=
  C10_flag_independent hW envW "raw" true
    (runLoop envW "raw" hW.signingAddresses initState) accW rfl rfl

end Webauth
